import Mathlib

/-!
Shallow embedding of the resilience layer of the pr-summarizer-bot
repository: the distributed rate limiter, result cache and audit log
(src/services/cache.ts), the circuit breaker and retry executor
(src/services/summarizer.ts and src/services/github.ts), and the label
filter (src/utils/validator.ts, src/handlers/pullRequest.ts).

Conventions of the embedding:
* The Redis store is external; each service method is modelled as a pure
  function of the store interaction outcome (`StoreOutcome`), mirroring
  the `try`/`catch` structure of the TypeScript line by line.  A method
  whose `catch` swallows the error returns `Except.ok`; a method whose
  `catch` rethrows returns `Except.error`.
* JavaScript numbers that hold small integers are modelled as `Int`
  (counter, limit, remaining) or `Nat` (epoch milliseconds, counts).
* `JSON.stringify`/`JSON.parse` round-tripping of a summary object is
  modelled by the constructor `StoredVal.summaryJson`; a stored value
  that does not parse back is `StoredVal.malformed`.
* `Date.now()` is passed in explicitly as `nowMs`; within one call it is
  treated as a single instant.
-/

namespace PRBot

/-- Rate-limit window in seconds (`RATE_LIMIT_WINDOW = 60 * 60` in cache.ts). -/
def RATE_LIMIT_WINDOW : Nat := 60 * 60

/-- Value object returned by `CacheService.checkRateLimit` (field names and
shapes follow the object literals at cache.ts lines 100-105 and 110-115). -/
structure RateLimitStatus where
  limit : Int
  remaining : Int
  reset : Nat
  isLimited : Bool
  deriving DecidableEq

/-- Status built on the success path of `checkRateLimit` (cache.ts lines
95-105): `remaining = Math.max(0, maxRequests - current)` and
`isLimited = current > maxRequests`, where `current` is the post-increment
counter value returned by `redis.incr`. -/
def rateLimitStatusOf (maxRequests current : Int) (nowMs : Nat) : RateLimitStatus :=
  { limit := maxRequests
    remaining := max 0 (maxRequests - current)
    reset := nowMs + RATE_LIMIT_WINDOW * 1000
    isLimited := decide (current > maxRequests) }

/-- One `checkRateLimit` call with the store available: `redis.incr`
returns `counter + 1` and the status is computed from it (cache.ts lines
88-105).  Returns the status together with the new counter value. -/
def checkRateLimit (maxRequests : Int) (nowMs : Nat) (counter : Int) :
    RateLimitStatus × Int :=
  let current := counter + 1
  (rateLimitStatusOf maxRequests current nowMs, current)

/-- Counter value after `k` successive `checkRateLimit` calls for one key
within one window, starting from an absent key (Redis `INCR` on a missing
key yields 1, i.e. the counter starts at 0). -/
def rateLimitCounterAfter (maxRequests : Int) (nowMs : Nat) : Nat → Int
  | 0 => 0
  | k + 1 =>
    (checkRateLimit maxRequests nowMs (rateLimitCounterAfter maxRequests nowMs k)).2

/-- Status returned by call number `k + 1` (zero-indexed `k`) in a sequence
of `checkRateLimit` calls for the same key within one window. -/
def rateLimitCallStatus (maxRequests : Int) (nowMs : Nat) (k : Nat) : RateLimitStatus :=
  (checkRateLimit maxRequests nowMs (rateLimitCounterAfter maxRequests nowMs k)).1

/-- Outcome of a single interaction with the shared store: either the
store answers with a value, or it is unreachable and the client library
throws (the thrown error object is identified by a numeral). -/
inductive StoreOutcome (α : Type) where
  | ok (a : α)
  | down (e : Nat)
  deriving DecidableEq

/-- Fail-open status returned by the `catch` branch of `checkRateLimit`
(cache.ts lines 110-115). -/
def failOpenStatus (maxRequests : Int) (nowMs : Nat) : RateLimitStatus :=
  { limit := maxRequests
    remaining := maxRequests
    reset := nowMs + RATE_LIMIT_WINDOW * 1000
    isLimited := false }

/-- Full `checkRateLimit` including the store interaction (cache.ts lines
84-117): `incr` is the outcome of `redis.incr`, `expire` the outcome of the
`redis.expire` issued when the increment is the first of the window.  Any
store error is caught and answered with the fail-open status; the method
never rethrows. -/
def checkRateLimitOp (maxRequests : Int) (nowMs : Nat)
    (incr : StoreOutcome Int) (expire : StoreOutcome Unit) :
    Except Nat RateLimitStatus :=
  match incr with
  | .down _ => .ok (failOpenStatus maxRequests nowMs)
  | .ok current =>
    if current = 1 then
      match expire with
      | .down _ => .ok (failOpenStatus maxRequests nowMs)
      | .ok _ => .ok (rateLimitStatusOf maxRequests current nowMs)
    else .ok (rateLimitStatusOf maxRequests current nowMs)

/-- `resetRateLimit` (cache.ts lines 122-132): the `catch` branch rethrows
the store error. -/
def resetRateLimitOp (del : StoreOutcome Unit) : Except Nat Unit :=
  match del with
  | .ok _ => .ok ()
  | .down e => .error e

/-- Summary payload produced by the LLM (src/types.ts `PRSummary`). -/
structure PRSummary where
  what : String
  why : String
  impact : String
  notes : Option String
  deriving DecidableEq

/-- A value stored under a summary cache key: either the JSON
serialization of a summary (which parses back to the same summary) or a
malformed blob on which `JSON.parse` throws. -/
inductive StoredVal where
  | summaryJson (s : PRSummary)
  | malformed (raw : Nat)
  deriving DecidableEq

/-- `getSummary` as a function of the `redis.get` outcome (cache.ts lines
47-64): a store failure or a `JSON.parse` failure is caught and answered
with `null`; an absent key is `null`; the method never rethrows. -/
def getSummaryOp (fetch : StoreOutcome (Option StoredVal)) :
    Except Nat (Option PRSummary) :=
  match fetch with
  | .down _ => .ok none
  | .ok none => .ok none
  | .ok (some (.summaryJson s)) => .ok (some s)
  | .ok (some (.malformed _)) => .ok none

/-- `cacheSummary` as a function of the `redis.setex` outcome (cache.ts
lines 32-42): the `catch` swallows the store error, so the method always
returns normally. -/
def cacheSummaryOp (write : StoreOutcome Unit) : Except Nat Unit :=
  match write with
  | .ok _ => .ok ()
  | .down _ => .ok ()

/-- `logAudit` as a function of the `redis.setex` outcome (cache.ts lines
69-79): the `catch` swallows the store error. -/
def logAuditOp (write : StoreOutcome Unit) : Except Nat Unit :=
  match write with
  | .ok _ => .ok ()
  | .down _ => .ok ()

/-- Audit record as written by the handler (pullRequest.ts lines 122-132)
and read back by `getAuditLogs`; `details` is an opaque payload and is
omitted from the model. -/
structure AuditLogEntry where
  timestamp : Nat
  correlationId : String
  actor : String
  action : String
  resource : String
  deriving DecidableEq

/-- Range test applied by `getAuditLogs` (cache.ts line 148):
`entry.timestamp >= startTime && entry.timestamp <= endTime`. -/
def auditInRange (startTime endTime : Nat) (e : AuditLogEntry) : Bool :=
  decide (startTime ≤ e.timestamp) && decide (e.timestamp ≤ endTime)

/-- `getAuditLogs` (cache.ts lines 137-161): scans all stored audit
entries, keeps those whose timestamp lies inclusively in the range, and
sorts the result descending by timestamp (`logs.sort((a, b) =>
b.timestamp - a.timestamp)`).  A store failure is rethrown by the `catch`
branch. -/
def getAuditLogsOp (fetch : StoreOutcome (List AuditLogEntry))
    (startTime endTime : Nat) : Except Nat (List AuditLogEntry) :=
  match fetch with
  | .down e => .error e
  | .ok entries =>
    .ok ((entries.filter (auditInRange startTime endTime)).mergeSort
      (fun a b => decide (b.timestamp ≤ a.timestamp)))

/-- The summary key space of the store, as a map from Redis keys to stored
values (absent key = `none`). -/
abbrev KStore := String → Option StoredVal

/-- `getSummaryKey` (cache.ts lines 179-181). -/
def getSummaryKey (owner repo : String) (prNumber : Nat) (sha : String) : String :=
  "summary:" ++ owner ++ ":" ++ repo ++ ":" ++ toString prNumber ++ ":" ++ sha

/-- `getRateLimitKey` (cache.ts lines 193-195). -/
def getRateLimitKey (owner repo : String) : String :=
  "rate:" ++ owner ++ ":" ++ repo

/-- Effect of `redis.setex` on the summary key space. -/
def setex (st : KStore) (key : String) (v : StoredVal) : KStore :=
  fun k => if k = key then some v else st k

/-- `cacheSummary` with the store available (cache.ts line 36): writes the
serialized summary under the summary key. -/
def cacheSummaryK (st : KStore) (owner repo : String) (prNumber : Nat)
    (sha : String) (s : PRSummary) : KStore :=
  setex st (getSummaryKey owner repo prNumber sha) (.summaryJson s)

/-- `getSummary` with the store available (cache.ts lines 47-64) reading
from the summary key space. -/
def getSummaryK (st : KStore) (owner repo : String) (prNumber : Nat)
    (sha : String) : Option PRSummary :=
  match st (getSummaryKey owner repo prNumber sha) with
  | none => none
  | some (.summaryJson s) => some s
  | some (.malformed _) => none

/-- Whether the character list `needle` is an initial segment of `hay`. -/
def charListStartsWith : List Char → List Char → Bool
  | [], _ => true
  | _ :: _, [] => false
  | a :: as, b :: bs => a == b && charListStartsWith as bs

/-- Whether `needle` occurs as a contiguous segment of `hay`. -/
def charListHasSegment (needle : List Char) : List Char → Bool
  | [] => charListStartsWith needle []
  | b :: bs => charListStartsWith needle (b :: bs) || charListHasSegment needle bs

/-- JavaScript `hay.includes(needle)` on strings. -/
def strIncludes (hay needle : String) : Bool :=
  charListHasSegment needle.toList hay.toList

/-- A JavaScript error value as inspected by the two `isRetriableError`
classifiers: either not an object (`null`, a primitive), or an object with
optional `status`, `message` and `code` fields. -/
inductive JsError where
  | primitive
  | obj (status : Option Int) (message : Option String) (code : Option String)
  deriving DecidableEq

/-- The `status` clause shared by both classifiers:
`err.status === 429 || (err.status && err.status >= 500)` (github.ts line
214, summarizer.ts line 239).  The `err.status &&` truthiness test is the
`s ≠ 0` conjunct. -/
def statusRetriable : Option Int → Bool
  | none => false
  | some s => decide (s = 429) || (decide (s ≠ 0) && decide (s ≥ 500))

/-- The `message` clause shared by both classifiers: `err.message &&
(err.message.includes('timeout') || err.message.includes('ETIMEDOUT'))`
(github.ts line 219, summarizer.ts line 244). -/
def messageRetriable : Option String → Bool
  | none => false
  | some m =>
    decide (m ≠ "") && (strIncludes m "timeout" || strIncludes m "ETIMEDOUT")

/-- The `code` clause of the summarizer classifier only: `err.code &&
(err.code === 'ECONNRESET' || err.code === 'ENOTFOUND')` (summarizer.ts
line 249). -/
def codeRetriable : Option String → Bool
  | none => false
  | some c =>
    decide (c ≠ "") && (decide (c = "ECONNRESET") || decide (c = "ENOTFOUND"))

/-- `GitHubService.isRetriableError` (github.ts lines 206-224): checks the
`status` and `message` clauses only; the `code` field is not inspected. -/
def githubIsRetriableError : JsError → Bool
  | .primitive => false
  | .obj status message _ => statusRetriable status || messageRetriable message

/-- `SummarizerService.isRetriableError` (summarizer.ts lines 231-254):
checks the `status`, `message` and `code` clauses. -/
def summarizerIsRetriableError : JsError → Bool
  | .primitive => false
  | .obj status message code =>
    statusRetriable status || messageRetriable message || codeRetriable code

/-- Body of the retry loop of `GitHubService.withRetry` (github.ts lines
175-201), with the delay elided: `op i` is the outcome of invocation
number `i` of the wrapped operation, `attempt` the current loop index and
`fuel = maxRetries - attempt` the remaining retry budget (`fuel = 0` is
the `attempt === this.MAX_RETRIES` exit).  Returns the propagated result
together with the number of invocations performed. -/
def withRetryAux (retriable : JsError → Bool) {α : Type}
    (op : Nat → Except JsError α) : (fuel attempt : Nat) → Except JsError α × Nat
  | 0, attempt =>
    match op attempt with
    | .ok a => (.ok a, 1)
    | .error e => (.error e, 1)
  | fuel' + 1, attempt =>
    match op attempt with
    | .ok a => (.ok a, 1)
    | .error e =>
      if retriable e then
        let r := withRetryAux retriable op fuel' (attempt + 1)
        (r.1, r.2 + 1)
      else (.error e, 1)

/-- `withRetry` (github.ts lines 175-201 and summarizer.ts lines 203-226
share this loop): run `op` up to `maxRetries + 1` times, retrying only
errors the injected classifier marks retriable, and propagate the last
error unchanged otherwise. -/
def runWithRetry (maxRetries : Nat) (retriable : JsError → Bool) {α : Type}
    (op : Nat → Except JsError α) : Except JsError α × Nat :=
  withRetryAux retriable op maxRetries 0

/-- Process-local circuit breaker state of `SummarizerService`
(summarizer.ts lines 18-20). -/
structure BreakerState where
  circuitBreakerFailures : Nat
  circuitBreakerResetTime : Nat
  deriving DecidableEq

/-- `CIRCUIT_BREAKER_THRESHOLD = 5` (summarizer.ts line 19). -/
def CIRCUIT_BREAKER_THRESHOLD : Nat := 5

/-- `MAX_RETRIES = 2` (summarizer.ts line 16, github.ts line 32). -/
def MAX_RETRIES : Nat := 2

/-- `SummarizerService.isCircuitOpen` (summarizer.ts lines 188-198).  The
method mutates the state: when the failure count has reached the threshold
but the cool-down has elapsed, it resets both fields to 0 and reports the
circuit closed. -/
def isCircuitOpen (st : BreakerState) (nowMs : Nat) : Bool × BreakerState :=
  if CIRCUIT_BREAKER_THRESHOLD ≤ st.circuitBreakerFailures then
    if nowMs < st.circuitBreakerResetTime then (true, st)
    else (false, ⟨0, 0⟩)
  else (false, st)

/-- One invocation of the operation passed to `withRetry` inside
`summarize` (summarizer.ts lines 65-104): on success the failure counter
is reset to 0 (line 81; the reset time is left as is); on any caught error
the counter is incremented and, once it reaches the threshold, the reset
time is set to `now + 60000` (lines 93-100) before the error is rethrown
to the retry loop. -/
def summarizeAttempt (st : BreakerState) (nowMs : Nat)
    {α : Type} (out : Except JsError α) : Except JsError α × BreakerState :=
  match out with
  | .ok a => (.ok a, { st with circuitBreakerFailures := 0 })
  | .error e =>
    let f := st.circuitBreakerFailures + 1
    if CIRCUIT_BREAKER_THRESHOLD ≤ f then (.error e, ⟨f, nowMs + 60000⟩)
    else (.error e, ⟨f, st.circuitBreakerResetTime⟩)

/-- `SummarizerService.withRetry` applied to the breaker-mutating
operation of `summarize`: the retry loop of summarizer.ts lines 203-226
threading the breaker state through each attempt.  Returns the result, the
final breaker state, and the number of invocations of the underlying LLM
operation. -/
def withRetryCBAux (nowMs : Nat) {α : Type} (outs : Nat → Except JsError α) :
    (fuel attempt : Nat) → BreakerState → Except JsError α × BreakerState × Nat
  | 0, attempt, st =>
    match summarizeAttempt st nowMs (outs attempt) with
    | (.ok a, st') => (.ok a, st', 1)
    | (.error e, st') => (.error e, st', 1)
  | fuel' + 1, attempt, st =>
    match summarizeAttempt st nowMs (outs attempt) with
    | (.ok a, st') => (.ok a, st', 1)
    | (.error e, st') =>
      if summarizerIsRetriableError e then
        let r := withRetryCBAux nowMs outs fuel' (attempt + 1) st'
        (r.1, r.2.1, r.2.2 + 1)
      else (.error e, st', 1)

/-- Outcome of one `summarize` call, as observed by the caller. -/
inductive SummarizeResult (α : Type) where
  | circuitOpen
  | ok (a : α)
  | failed (e : JsError)
  deriving DecidableEq

/-- `SummarizerService.summarize` for a context with sufficient content
(summarizer.ts lines 43-105): check `isCircuitOpen` first and fail fast
with the circuit-open error before touching the retry loop; otherwise run
the retry-wrapped LLM operation.  `outs i` is the outcome of LLM
invocation number `i` (an `invoke` failure and a parse failure both land
in the same `catch`).  The insufficient-context early return (lines
50-61) sits between the two and touches neither the breaker nor the
retry loop, so it is not modelled.  Returns the caller-visible result,
the final breaker state, and the number of LLM invocations. -/
def summarize (st : BreakerState) (nowMs : Nat) {α : Type}
    (outs : Nat → Except JsError α) : SummarizeResult α × BreakerState × Nat :=
  match isCircuitOpen st nowMs with
  | (true, st') => (.circuitOpen, st', 0)
  | (false, st') =>
    match withRetryCBAux nowMs outs MAX_RETRIES 0 st' with
    | (.ok a, st'', n) => (.ok a, st'', n)
    | (.error e, st'', n) => (.failed e, st'', n)

/-- Breaker state after `n` consecutive `summarize` calls that each fail
with the fixed error `e`, all issued at time `t`. -/
def repeatFailedSummarize (e : JsError) (t : Nat) : Nat → BreakerState → BreakerState
  | 0, st => st
  | n + 1, st =>
    repeatFailedSummarize e t n
      (summarize st t (α := Unit) (fun _ => .error e)).2.1

/-- `shouldIgnoreByLabel` (validator.ts lines 40-46). -/
def shouldIgnoreByLabel (prLabels ignoreLabels : List String) : Bool :=
  if prLabels.isEmpty || ignoreLabels.isEmpty then false
  else prLabels.any (fun label => ignoreLabels.contains label)

/-- The label-filter step of the pull-request handler (pullRequest.ts line
48): the handler calls `shouldIgnoreByLabel(prLabels, [])` with a
hard-coded empty ignore list. -/
def handlerLabelFilter (prLabels : List String) : Bool :=
  shouldIgnoreByLabel prLabels []

/-! Helper lemmas. -/

/-- The counter under one rate-limit key equals the number of calls made. -/
theorem rateLimitCounterAfter_eq (maxRequests : Int) (nowMs : Nat) :
    ∀ k : Nat, rateLimitCounterAfter maxRequests nowMs k = (k : Int) := by
  intro k
  induction k with
  | zero => rfl
  | succ n ih =>
    simp only [rateLimitCounterAfter, checkRateLimit, ih]
    push_cast
    ring

/-- A fatally failing first attempt ends the summarizer retry loop at one
invocation, with the breaker counter incremented once. -/
theorem withRetryCB_fatal (st : BreakerState) (t : Nat) (e : JsError)
    (he : summarizerIsRetriableError e = false) (fuel attempt : Nat) :
    withRetryCBAux t (α := Unit) (fun _ => .error e) fuel attempt st =
      (.error e,
        ⟨st.circuitBreakerFailures + 1,
          if CIRCUIT_BREAKER_THRESHOLD ≤ st.circuitBreakerFailures + 1 then t + 60000
          else st.circuitBreakerResetTime⟩,
        1) := by
  by_cases h : CIRCUIT_BREAKER_THRESHOLD ≤ st.circuitBreakerFailures + 1 <;>
    cases fuel <;> simp [withRetryCBAux, summarizeAttempt, he, h]

/-- With the circuit closed, a `summarize` call whose every LLM invocation
would fail with a fatal error performs exactly one invocation, propagates
the error, and increments the breaker counter once. -/
theorem summarize_fatal (st : BreakerState) (t : Nat) (e : JsError)
    (he : summarizerIsRetriableError e = false)
    (hf : st.circuitBreakerFailures < CIRCUIT_BREAKER_THRESHOLD) :
    summarize st t (α := Unit) (fun _ => .error e) =
      (.failed e,
        ⟨st.circuitBreakerFailures + 1,
          if CIRCUIT_BREAKER_THRESHOLD ≤ st.circuitBreakerFailures + 1 then t + 60000
          else st.circuitBreakerResetTime⟩,
        1) := by
  have h1 : isCircuitOpen st t = (false, st) := by
    unfold isCircuitOpen
    rw [if_neg (by omega)]
  simp only [summarize, h1, withRetryCB_fatal st t e he MAX_RETRIES 0]

/-- With the breaker open and inside the cool-down, `summarize` fails fast:
circuit-open outcome, state untouched, zero LLM invocations. -/
theorem summarize_open {α : Type} (st : BreakerState) (nowMs : Nat)
    (outs : Nat → Except JsError α)
    (h1 : CIRCUIT_BREAKER_THRESHOLD ≤ st.circuitBreakerFailures)
    (h2 : nowMs < st.circuitBreakerResetTime) :
    summarize st nowMs outs = (.circuitOpen, st, 0) := by
  have h : isCircuitOpen st nowMs = (true, st) := by
    unfold isCircuitOpen
    rw [if_pos h1, if_pos h2]
  simp only [summarize, h]

/-- The summarizer retry loop always invokes the operation at least once. -/
theorem withRetryCBAux_pos {α : Type} (nowMs : Nat) (outs : Nat → Except JsError α) :
    ∀ (fuel attempt : Nat) (st : BreakerState),
      1 ≤ (withRetryCBAux nowMs outs fuel attempt st).2.2 := by
  intro fuel
  induction fuel with
  | zero =>
    intro attempt st
    unfold withRetryCBAux
    rcases h : summarizeAttempt st nowMs (outs attempt) with ⟨r, st'⟩
    cases r <;> simp [h]
  | succ fuel' _ =>
    intro attempt st
    unfold withRetryCBAux
    rcases h : summarizeAttempt st nowMs (outs attempt) with ⟨r, st'⟩
    cases r with
    | ok a => simp [h]
    | error e =>
      simp only [h]
      split <;> simp

/-- With the circuit closed the caller is admitted: the result is never the
circuit-open outcome and the operation runs at least once. -/
theorem summarize_closed_admits {α : Type} (st : BreakerState) (nowMs : Nat)
    (outs : Nat → Except JsError α)
    (hf : st.circuitBreakerFailures < CIRCUIT_BREAKER_THRESHOLD) :
    (summarize st nowMs outs).1 ≠ .circuitOpen
    ∧ 1 ≤ (summarize st nowMs outs).2.2 := by
  have h1 : isCircuitOpen st nowMs = (false, st) := by
    unfold isCircuitOpen
    rw [if_neg (by omega)]
  have hp := withRetryCBAux_pos nowMs outs MAX_RETRIES 0 st
  simp only [summarize, h1]
  rcases h : withRetryCBAux nowMs outs MAX_RETRIES 0 st with ⟨r, st'', n⟩
  rw [h] at hp
  cases r <;> simp_all

/-! Claim theorems. -/

/-- C1: with the store available and no window expiry in between, a
sequence of `checkRateLimit` calls for one `(owner, repo)` key returns
`isLimited = false` on each of the first `limit` calls and
`isLimited = true` on every call from the `(limit+1)`-th onward, for every
`limit ≥ 1` (call number `k + 1` is the call with zero-based index `k`). -/
theorem checkRateLimit_window_behavior (maxRequests : Int) (nowMs : Nat) (k : Nat)
    (hlim : 1 ≤ maxRequests) :
    ((k : Int) + 1 ≤ maxRequests →
      (rateLimitCallStatus maxRequests nowMs k).isLimited = false)
    ∧ (maxRequests < (k : Int) + 1 →
      (rateLimitCallStatus maxRequests nowMs k).isLimited = true) := by
  unfold rateLimitCallStatus checkRateLimit rateLimitStatusOf
  rw [rateLimitCounterAfter_eq]
  constructor <;> intro h <;> simp <;> omega

/-- Witness for C1: with `limit = 2` the first call is not limited. -/
theorem checkRateLimit_window_behavior_witness :
    (1 : Int) ≤ 2 ∧ ((0 : Nat) : Int) + 1 ≤ 2
    ∧ (rateLimitCallStatus 2 0 0).isLimited = false :=
  ⟨by norm_num, by norm_num,
    (checkRateLimit_window_behavior 2 0 0 (by norm_num)).1 (by norm_num)⟩

/-- C2 fails on the code: on the call where the counter reaches exactly the
limit (`limit = 1`, first call, `current = 1`), the returned status has
`remaining = 0` but `isLimited = false`, because cache.ts line 96 sets
`isLimited = current > maxRequests` rather than `current ≥ maxRequests`.
So `isLimited ⇔ remaining == 0` does not hold. -/
theorem rateLimitStatus_invariant_counterexample :
    ¬(((rateLimitCallStatus 1 0 0).isLimited = true)
      ↔ (rateLimitCallStatus 1 0 0).remaining = 0) := by decide

/-- C2 (amended): every status produced on the counter path of
`checkRateLimit` satisfies `remaining = max(0, limit − current)` and
`isLimited ⇔ current > limit`; hence `isLimited` implies `remaining = 0`,
but not conversely — the call on which the counter exactly reaches the
limit has `remaining = 0` and `isLimited = false`. -/
theorem rateLimitStatus_invariant_amended (maxRequests counter : Int) (nowMs : Nat) :
    ((checkRateLimit maxRequests nowMs counter).1.remaining
      = max 0 (maxRequests - (counter + 1)))
    ∧ ((checkRateLimit maxRequests nowMs counter).1.isLimited = true
      ↔ maxRequests < counter + 1)
    ∧ ((checkRateLimit maxRequests nowMs counter).1.isLimited = true →
      (checkRateLimit maxRequests nowMs counter).1.remaining = 0) := by
  unfold checkRateLimit rateLimitStatusOf
  refine ⟨rfl, by simp, ?_⟩
  intro h
  simp at h ⊢
  omega

/-- Witness for C2 (amended): at `limit = 1`, `counter = 1` (second call)
the status is limited, hence has zero remaining. -/
theorem rateLimitStatus_invariant_amended_witness :
    (checkRateLimit 1 0 1).1.remaining = 0 :=
  (rateLimitStatus_invariant_amended 1 1 0).2.2
    ((rateLimitStatus_invariant_amended 1 1 0).2.1.mpr (by norm_num))

/-- C3: whenever the failure count has reached the threshold (5) and the
cool-down has not elapsed, `summarize` returns the distinguishable
circuit-open error with the breaker state untouched and zero invocations
of the LLM operation (hence the retry loop is never entered); in
particular, 5 consecutive `summarize` calls failing with a fatal error
leave the breaker at 5 failures with cool-down `t + 60000`, and a 6th
call within the cool-down is rejected the same way. -/
theorem summarize_circuit_open_fails_fast :
    (∀ {α : Type} (st : BreakerState) (nowMs : Nat) (outs : Nat → Except JsError α),
      CIRCUIT_BREAKER_THRESHOLD ≤ st.circuitBreakerFailures →
      nowMs < st.circuitBreakerResetTime →
      summarize st nowMs outs = (.circuitOpen, st, 0))
    ∧ (∀ (e : JsError) (t : Nat), summarizerIsRetriableError e = false →
      repeatFailedSummarize e t 5 ⟨0, 0⟩ = ⟨5, t + 60000⟩
      ∧ ∀ (nowMs : Nat) (outs : Nat → Except JsError Unit), nowMs < t + 60000 →
        summarize ⟨5, t + 60000⟩ nowMs outs = (.circuitOpen, ⟨5, t + 60000⟩, 0)) := by
  constructor
  · intro α st nowMs outs h1 h2
    exact summarize_open st nowMs outs h1 h2
  · intro e t he
    have s1 : summarize (⟨0, 0⟩ : BreakerState) t (α := Unit) (fun _ => .error e)
        = (.failed e, ⟨1, 0⟩, 1) := by
      simpa [CIRCUIT_BREAKER_THRESHOLD] using summarize_fatal ⟨0, 0⟩ t e he (by decide)
    have s2 : summarize (⟨1, 0⟩ : BreakerState) t (α := Unit) (fun _ => .error e)
        = (.failed e, ⟨2, 0⟩, 1) := by
      simpa [CIRCUIT_BREAKER_THRESHOLD] using summarize_fatal ⟨1, 0⟩ t e he (by decide)
    have s3 : summarize (⟨2, 0⟩ : BreakerState) t (α := Unit) (fun _ => .error e)
        = (.failed e, ⟨3, 0⟩, 1) := by
      simpa [CIRCUIT_BREAKER_THRESHOLD] using summarize_fatal ⟨2, 0⟩ t e he (by decide)
    have s4 : summarize (⟨3, 0⟩ : BreakerState) t (α := Unit) (fun _ => .error e)
        = (.failed e, ⟨4, 0⟩, 1) := by
      simpa [CIRCUIT_BREAKER_THRESHOLD] using summarize_fatal ⟨3, 0⟩ t e he (by decide)
    have s5 : summarize (⟨4, 0⟩ : BreakerState) t (α := Unit) (fun _ => .error e)
        = (.failed e, ⟨5, t + 60000⟩, 1) := by
      simpa [CIRCUIT_BREAKER_THRESHOLD] using summarize_fatal ⟨4, 0⟩ t e he (by decide)
    have hrun : repeatFailedSummarize e t 5 ⟨0, 0⟩ = ⟨5, t + 60000⟩ := by
      show repeatFailedSummarize e t 4
        (summarize (⟨0, 0⟩ : BreakerState) t (α := Unit) (fun _ => .error e)).2.1 = _
      rw [s1]
      show repeatFailedSummarize e t 3
        (summarize (⟨1, 0⟩ : BreakerState) t (α := Unit) (fun _ => .error e)).2.1 = _
      rw [s2]
      show repeatFailedSummarize e t 2
        (summarize (⟨2, 0⟩ : BreakerState) t (α := Unit) (fun _ => .error e)).2.1 = _
      rw [s3]
      show repeatFailedSummarize e t 1
        (summarize (⟨3, 0⟩ : BreakerState) t (α := Unit) (fun _ => .error e)).2.1 = _
      rw [s4]
      show repeatFailedSummarize e t 0
        (summarize (⟨4, 0⟩ : BreakerState) t (α := Unit) (fun _ => .error e)).2.1 = _
      rw [s5]
      rfl
    refine ⟨hrun, ?_⟩
    intro nowMs outs h
    exact summarize_open ⟨5, t + 60000⟩ nowMs outs (by simp [CIRCUIT_BREAKER_THRESHOLD]) h

/-- Witness for C3: with the breaker at 5 failures and cool-down until
100, a call at time 0 fails fast; and 5 consecutive fatally failing calls
at time 0 leave the breaker at `⟨5, 60000⟩`. -/
theorem summarize_circuit_open_fails_fast_witness :
    summarize (⟨5, 100⟩ : BreakerState) 0 (α := Unit) (fun _ => .error .primitive)
      = (.circuitOpen, ⟨5, 100⟩, 0)
    ∧ repeatFailedSummarize .primitive 0 5 ⟨0, 0⟩ = ⟨5, 60000⟩ :=
  ⟨summarize_circuit_open_fails_fast.1 ⟨5, 100⟩ 0 _ (by decide) (by decide),
    (summarize_circuit_open_fails_fast.2 .primitive 0 rfl).1⟩

/-- C4 is false on the code: `isCircuitOpen` (summarizer.ts lines 193-195)
resets the failure counter to 0 as soon as the cool-down elapses, so the
outcome of the trial call does not re-open the breaker.  Concretely, with
the breaker at `⟨5, 100⟩` and the cool-down elapsed (`now = 100`), a trial
call that fails leaves the state at `⟨1, 0⟩` (closed, not re-opened), and
the very next call is admitted: its LLM operation is invoked (count 1)
instead of being rejected with the circuit-open error. -/
theorem halfopen_single_trial_counterexample :
    summarize (⟨5, 100⟩ : BreakerState) 100 (α := Unit) (fun _ => .error .primitive)
      = (.failed .primitive, ⟨1, 0⟩, 1)
    ∧ summarize (⟨1, 0⟩ : BreakerState) 100 (α := Unit) (fun _ => .error .primitive)
      = (.failed .primitive, ⟨2, 0⟩, 1) := by decide

/-- C4 (amended): once the breaker is open and the cool-down elapses, the
next `isCircuitOpen` check resets the whole breaker state to `⟨0, 0⟩` and
reports the circuit closed; a trial call that fails fatally therefore
leaves the breaker at one recorded failure (not re-opened), and subsequent
callers are still admitted — the breaker only re-opens after the failure
count reaches the threshold (5) again. -/
theorem halfopen_full_reset_amended :
    (∀ (st : BreakerState) (nowMs : Nat),
      CIRCUIT_BREAKER_THRESHOLD ≤ st.circuitBreakerFailures →
      st.circuitBreakerResetTime ≤ nowMs →
      isCircuitOpen st nowMs = (false, ⟨0, 0⟩))
    ∧ (∀ (st : BreakerState) (nowMs : Nat) (e : JsError),
      CIRCUIT_BREAKER_THRESHOLD ≤ st.circuitBreakerFailures →
      st.circuitBreakerResetTime ≤ nowMs →
      summarizerIsRetriableError e = false →
      summarize st nowMs (α := Unit) (fun _ => .error e) = (.failed e, ⟨1, 0⟩, 1))
    ∧ (∀ {α : Type} (nowMs : Nat) (outs : Nat → Except JsError α),
      (summarize ⟨1, 0⟩ nowMs outs).1 ≠ .circuitOpen
      ∧ 1 ≤ (summarize ⟨1, 0⟩ nowMs outs).2.2) := by
  have hreset : ∀ (st : BreakerState) (nowMs : Nat),
      CIRCUIT_BREAKER_THRESHOLD ≤ st.circuitBreakerFailures →
      st.circuitBreakerResetTime ≤ nowMs →
      isCircuitOpen st nowMs = (false, ⟨0, 0⟩) := by
    intro st nowMs h1 h2
    unfold isCircuitOpen
    rw [if_pos h1, if_neg (by omega)]
  refine ⟨hreset, ?_, ?_⟩
  · intro st nowMs e h1 h2 he
    simp only [summarize, hreset st nowMs h1 h2,
      withRetryCB_fatal ⟨0, 0⟩ nowMs e he MAX_RETRIES 0]
    norm_num [CIRCUIT_BREAKER_THRESHOLD]
  · intro α nowMs outs
    exact summarize_closed_admits ⟨1, 0⟩ nowMs outs (by simp [CIRCUIT_BREAKER_THRESHOLD])

/-- When every attempt the retry budget allows before the last fails with
a retriable error, the loop runs to the final attempt and returns its
outcome, having invoked the operation `fuel + 1` times. -/
theorem withRetryAux_all_retriable (retriable : JsError → Bool) {α : Type}
    (op : Nat → Except JsError α) :
    ∀ (fuel attempt : Nat),
      (∀ i, i < fuel → ∃ e, op (attempt + i) = .error e ∧ retriable e = true) →
      withRetryAux retriable op fuel attempt = (op (attempt + fuel), fuel + 1) := by
  intro fuel
  induction fuel with
  | zero =>
    intro attempt _
    unfold withRetryAux
    rcases h : op attempt with e | a <;> simp [h]
  | succ fuel' ih =>
    intro attempt hall
    obtain ⟨e0, he0, hr0⟩ := hall 0 (by omega)
    rw [Nat.add_zero] at he0
    have hshift : ∀ i, i < fuel' →
        ∃ e, op (attempt + 1 + i) = .error e ∧ retriable e = true := by
      intro i hi
      obtain ⟨e, he, hr⟩ := hall (i + 1) (by omega)
      exact ⟨e, by rw [show attempt + 1 + i = attempt + (i + 1) by omega]; exact he, hr⟩
    simp only [withRetryAux, he0, hr0, if_true]
    rw [ih (attempt + 1) hshift]
    rw [show attempt + 1 + fuel' = attempt + (fuel' + 1) by omega]

/-- C5: for every operation wrapped by the retry executor with classifier
`retriable` and budget `maxRetries`: a first invocation failing with a
fatal-classified error ends the loop at exactly 1 invocation with that
error propagated unchanged; if the first `maxRetries` invocations fail
retriable and the last succeeds, the operation runs exactly
`maxRetries + 1` times and the success value is returned; if every
invocation fails retriable, the operation runs exactly `maxRetries + 1`
times and the last error object is propagated unchanged. -/
theorem runWithRetry_spec (maxRetries : Nat) (retriable : JsError → Bool) {α : Type}
    (op : Nat → Except JsError α) :
    (∀ e, op 0 = .error e → retriable e = false →
      runWithRetry maxRetries retriable op = (.error e, 1))
    ∧ ((∀ i, i < maxRetries → ∃ e, op i = .error e ∧ retriable e = true) →
      (∀ a, op maxRetries = .ok a →
        runWithRetry maxRetries retriable op = (.ok a, maxRetries + 1))
      ∧ (∀ e, op maxRetries = .error e →
        runWithRetry maxRetries retriable op = (.error e, maxRetries + 1))) := by
  constructor
  · intro e h hf
    cases maxRetries <;> simp [runWithRetry, withRetryAux, h, hf]
  · intro hall
    have key : runWithRetry maxRetries retriable op = (op maxRetries, maxRetries + 1) := by
      have h := withRetryAux_all_retriable retriable op maxRetries 0
        (fun i hi => by simpa using hall i hi)
      simpa [runWithRetry] using h
    exact ⟨fun a ha => by rw [key, ha], fun e he => by rw [key, he]⟩

/-- Witness for C5: with the GitHub classifier, an operation that fails
twice with HTTP 429 and then succeeds is invoked 3 times and returns the
success value. -/
theorem runWithRetry_spec_witness :
    runWithRetry 2 githubIsRetriableError
      (fun i => if i < 2 then .error (.obj (some 429) none none) else .ok (7 : Nat))
      = (.ok 7, 3) :=
  ((runWithRetry_spec 2 githubIsRetriableError
      (fun i => if i < 2 then .error (.obj (some 429) none none) else .ok (7 : Nat))).2
    (fun i hi => ⟨.obj (some 429) none none, by simp [hi], by decide⟩)).1
    7 (by norm_num)

/-- C6 fails on the code: `GitHubService.isRetriableError` (github.ts lines
206-224) destructures only `status` and `message` and never inspects
`err.code`, so an error carrying code `ECONNRESET` (no status, no timeout
message) is classified NOT retriable by the GitHub-side classifier. -/
theorem githubRetriable_code_counterexample :
    githubIsRetriableError (.obj none none (some "ECONNRESET")) = false := by decide

/-- C6 (amended): `GitHubService.isRetriableError` classifies as retriable
exactly HTTP 429, HTTP ≥ 500 and timeout signals; it ignores the `code`
field entirely, so the transient connection-reset/DNS codes are retriable
only for the summarizer classifier: for `code ∈ {ECONNRESET, ENOTFOUND}`
with no other signal present, `SummarizerService.isRetriableError` returns
true while `GitHubService.isRetriableError` returns false. -/
theorem githubRetriable_amended :
    (∀ (status : Option Int) (message : Option String) (code code2 : Option String),
      githubIsRetriableError (.obj status message code)
        = githubIsRetriableError (.obj status message code2))
    ∧ (∀ (status : Option Int) (message : Option String) (code : Option String),
      githubIsRetriableError (.obj status message code)
        = (statusRetriable status || messageRetriable message))
    ∧ (∀ c : String, c = "ECONNRESET" ∨ c = "ENOTFOUND" →
      summarizerIsRetriableError (.obj none none (some c)) = true
      ∧ githubIsRetriableError (.obj none none (some c)) = false) := by
  refine ⟨fun _ _ _ _ => rfl, fun _ _ _ => rfl, ?_⟩
  rintro c (rfl | rfl) <;> exact ⟨by decide, by decide⟩

/-- Witness for C6 (amended): the summarizer classifier does retry
`ECONNRESET`. -/
theorem githubRetriable_amended_witness :
    summarizerIsRetriableError (.obj none none (some "ECONNRESET")) = true :=
  (githubRetriable_amended.2.2 "ECONNRESET" (Or.inl rfl)).1

/-- C7 fails on the code in its "only resetRateLimit propagates" part:
`getAuditLogs` (cache.ts line 159) also rethrows a store error to its
caller, as this concrete evaluation shows. -/
theorem getAuditLogs_propagates_counterexample :
    getAuditLogsOp (.down 7) 0 1000 = .error 7 := rfl

/-- C7 (amended): on a store failure `checkRateLimit` returns the
fail-open status with `isLimited = false` and `remaining = limit` and
never rethrows; `getSummary`, `cacheSummary` and `logAudit` never rethrow
either; the operations that propagate a store error to the caller are
exactly the two administrative ones, `resetRateLimit` and
`getAuditLogs`. -/
theorem storeFailure_policy_amended :
    (∀ (maxRequests : Int) (nowMs : Nat) (e : Nat) (expire : StoreOutcome Unit),
      checkRateLimitOp maxRequests nowMs (.down e) expire
        = .ok (failOpenStatus maxRequests nowMs)
      ∧ (failOpenStatus maxRequests nowMs).isLimited = false
      ∧ (failOpenStatus maxRequests nowMs).remaining = maxRequests)
    ∧ (∀ (maxRequests : Int) (nowMs : Nat) (incr : StoreOutcome Int)
        (expire : StoreOutcome Unit),
      ∃ s, checkRateLimitOp maxRequests nowMs incr expire = .ok s)
    ∧ (∀ fetch, ∃ v, getSummaryOp fetch = .ok v)
    ∧ (∀ w, cacheSummaryOp w = .ok ())
    ∧ (∀ w, logAuditOp w = .ok ())
    ∧ (∀ e, resetRateLimitOp (.down e) = .error e)
    ∧ (∀ (e t0 t1 : Nat), getAuditLogsOp (.down e) t0 t1 = .error e) := by
  refine ⟨fun _ _ _ _ => ⟨rfl, rfl, rfl⟩, ?_, ?_, ?_, ?_, fun _ => rfl, fun _ _ _ => rfl⟩
  · intro m now incr expire
    cases incr with
    | down e => exact ⟨_, rfl⟩
    | ok current =>
      by_cases h : current = 1
      · cases expire with
        | ok u =>
          exact ⟨rateLimitStatusOf m current now, by simp [checkRateLimitOp, h]⟩
        | down e =>
          exact ⟨failOpenStatus m now, by simp [checkRateLimitOp, h]⟩
      · exact ⟨rateLimitStatusOf m current now, by simp [checkRateLimitOp, h]⟩
  · intro fetch
    cases fetch with
    | down e => exact ⟨none, rfl⟩
    | ok v =>
      cases v with
      | none => exact ⟨none, rfl⟩
      | some sv => cases sv <;> exact ⟨_, rfl⟩
  · intro w
    cases w <;> rfl
  · intro w
    cases w <;> rfl

/-- C8: writing a summary and immediately reading the same
`(owner, repo, prNumber, sha)` key back returns an equal summary; a key
never written reads as a miss; and `getSummary` answers a miss rather than
throwing both when the store fails and when the stored value is
malformed. -/
theorem cache_put_get_roundtrip :
    (∀ (st : KStore) (owner repo : String) (pr : Nat) (sha : String) (s : PRSummary),
      getSummaryK (cacheSummaryK st owner repo pr sha s) owner repo pr sha = some s)
    ∧ (∀ (st : KStore) (owner repo : String) (pr : Nat) (sha : String),
      st (getSummaryKey owner repo pr sha) = none →
      getSummaryK st owner repo pr sha = none)
    ∧ (∀ e, getSummaryOp (.down e) = .ok none)
    ∧ (∀ raw, getSummaryOp (.ok (some (.malformed raw))) = .ok none) := by
  refine ⟨?_, ?_, fun _ => rfl, fun _ => rfl⟩
  · intro st owner repo pr sha s
    simp [getSummaryK, cacheSummaryK, setex]
  · intro st owner repo pr sha h
    simp [getSummaryK, h]

/-- Witness for C8: reading a never-written key from the empty store is a
miss. -/
theorem cache_put_get_roundtrip_witness :
    (fun _ => (none : Option StoredVal)) (getSummaryKey "acme" "widgets" 1 "sha1") = none
    ∧ getSummaryK (fun _ => none) "acme" "widgets" 1 "sha1" = none :=
  ⟨rfl, cache_put_get_roundtrip.2.1 (fun _ => none) "acme" "widgets" 1 "sha1" rfl⟩

/-- C9: for every stored set of audit entries and every range,
`getAuditLogs` returns exactly the entries whose timestamp lies
inclusively between the bounds (as a permutation of the filtered list,
with membership characterized), sorted descending by timestamp. -/
theorem getAuditLogs_range_query (entries : List AuditLogEntry) (t0 t1 : Nat) :
    ∃ res, getAuditLogsOp (.ok entries) t0 t1 = .ok res
      ∧ res.Perm (entries.filter (auditInRange t0 t1))
      ∧ (∀ e, e ∈ res ↔ e ∈ entries ∧ t0 ≤ e.timestamp ∧ e.timestamp ≤ t1)
      ∧ res.Pairwise (fun a b => b.timestamp ≤ a.timestamp) := by
  refine ⟨_, rfl, List.mergeSort_perm _ _, ?_, ?_⟩
  · intro e
    rw [List.mem_mergeSort, List.mem_filter]
    simp [auditInRange]
  · have h := @List.sorted_mergeSort AuditLogEntry
      (fun a b => decide (b.timestamp ≤ a.timestamp))
      (fun a b c h1 h2 => by
        simp only [decide_eq_true_eq] at h1 h2 ⊢
        omega)
      (fun a b => by
        simp only [Bool.or_eq_true, decide_eq_true_eq]
        omega)
      (entries.filter (auditInRange t0 t1))
    exact h.imp (fun hab => by simpa using hab)

/-- C10: the pull-request handler invokes the label filter with a
hard-coded empty ignore list, and `shouldIgnoreByLabel` with an empty
ignore list returns false for every label list, so no pull request is ever
skipped by the label-filter step. -/
theorem handlerLabelFilter_never_ignores :
    ∀ prLabels : List String,
      handlerLabelFilter prLabels = false
      ∧ shouldIgnoreByLabel prLabels [] = false := by
  intro prLabels
  have h : shouldIgnoreByLabel prLabels [] = false := by
    unfold shouldIgnoreByLabel
    simp
  exact ⟨h, h⟩

/-- Witness for C4 (amended): the concrete half-open trace. -/
theorem halfopen_full_reset_amended_witness :
    isCircuitOpen ⟨5, 100⟩ 100 = (false, ⟨0, 0⟩)
    ∧ summarize (⟨5, 100⟩ : BreakerState) 100 (α := Unit) (fun _ => .error .primitive)
      = (.failed .primitive, ⟨1, 0⟩, 1)
    ∧ (summarize (⟨1, 0⟩ : BreakerState) 100 (α := Unit)
        (fun _ => .error .primitive)).1 ≠ .circuitOpen :=
  ⟨halfopen_full_reset_amended.1 ⟨5, 100⟩ 100 (by decide) (by decide),
    halfopen_full_reset_amended.2.1 ⟨5, 100⟩ 100 .primitive (by decide) (by decide) rfl,
    (halfopen_full_reset_amended.2.2 100 (fun _ => .error .primitive)).1⟩

end PRBot
